import Mathlib

/-!
# Verification of the cable OCR calculator's client-side calculation engine

Shallow embedding of `src/static/script_enhanced.js` (the client-side
calculation and validation engine of the cable short-circuit sizing
calculator) and proofs of the specification's claims about it.

Modelling conventions:
* A JavaScript number is `JSNum := Option ℝ`: `none` models `NaN`
  (any comparison with `NaN` is false, which `jsLe` / `jsGt` encode),
  `some x` a real value.  `parseFloat` of an empty or unparsable field
  yields `NaN`, i.e. `none`.
* A function that can `return null` is modelled with an `Option` result,
  `none` being the null sentinel.
* `Math.log` is `Real.log`, `Math.sqrt` is `Real.sqrt` (the embedded
  code only ever takes square roots of nonnegative quantities on its
  reachable paths, where the two agree), `Math.PI` is `Real.pi`.
* Display-only `toFixed` formatting and string capitalisation are not
  modelled; derived fields store the computed real values.
-/

/-- A JavaScript number: `none` models `NaN`, `some x` the real value `x`. -/
abbrev JSNum : Type := Option ℝ

/-- JavaScript `a <= b`: false whenever either side is `NaN`. -/
noncomputable def jsLe : JSNum → JSNum → Bool
  | some a, some b => decide (a ≤ b)
  | _, _ => false

/-- JavaScript `a > b`: false whenever either side is `NaN`. -/
noncomputable def jsGt : JSNum → JSNum → Bool
  | some a, some b => decide (b < a)
  | _, _ => false

/-- Model of `validateVoltageTime(voltageKv, t)` from script_enhanced.js lines 161-175:
rejects `voltageKv <= 0 || t <= 0`, then `voltageKv > 400`, then `t > 10`.
The comparisons are JavaScript comparisons, hence false on `NaN`. -/
noncomputable def validateVoltageTime (voltageKv t : JSNum) : Bool :=
  if jsLe voltageKv (some 0) || jsLe t (some 0) then false
  else if jsGt voltageKv (some 400) then false
  else if jsGt t (some 10) then false
  else true

/-- Model of `calculateConductorAreaFromCurrent` (lines 475-508): reads the five
fields, rejects any `NaN`, validates voltage/time, requires positive
current and `K`, then computes
`S = sqrt(I_AD_A² · t / (K² · ln((θf+β)/(θi+β))))` with θi = 90, θf = 250,
returning the null sentinel when `lnTerm ≤ 0` or `S² ≤ 0`. -/
noncomputable def calculateConductorAreaFromCurrent
    (voltageKv I_AD_kA t K beta : JSNum) : Option ℝ :=
  match voltageKv, I_AD_kA, t, K, beta with
  | some v, some i, some tt, some k, some b =>
    if validateVoltageTime (some v) (some tt) = false then none
    else if i ≤ 0 ∨ k ≤ 0 then none
    else
      let lnTerm := Real.log ((250 + b) / (90 + b))
      if lnTerm ≤ 0 then none
      else
        let S_sq := (i * 1000) ^ 2 * tt / (k ^ 2 * lnTerm)
        if S_sq ≤ 0 then none else some (Real.sqrt S_sq)
  | _, _, _, _, _ => none

/-- Model of `calculateConductorCurrentFromArea` (lines 510-541): rejects `NaN`
inputs, requires `t > 0`, `S_given > 0`, `K > 0` and `lnTerm > 0`, then
returns `K · S_given · sqrt(lnTerm / t) / 1000` (kA). -/
noncomputable def calculateConductorCurrentFromArea
    (t K beta S_given : JSNum) : Option ℝ :=
  match t, K, beta, S_given with
  | some tt, some k, some b, some s =>
    if tt ≤ 0 then none
    else if s ≤ 0 ∨ k ≤ 0 then none
    else
      let lnTerm := Real.log ((250 + b) / (90 + b))
      if lnTerm ≤ 0 then none
      else some (k * s * Real.sqrt (lnTerm / tt) / 1000)
  | _, _, _, _ => none

/-! ## Helper lemmas about `validateVoltageTime` -/

theorem jsLe_some_some (a b : ℝ) : jsLe (some a) (some b) = decide (a ≤ b) := rfl

theorem jsGt_some_some (a b : ℝ) : jsGt (some a) (some b) = decide (b < a) := rfl

theorem validateVoltageTime_some_iff (v t : ℝ) :
    validateVoltageTime (some v) (some t) = true ↔
      0 < v ∧ v ≤ 400 ∧ 0 < t ∧ t ≤ 10 := by
  simp only [validateVoltageTime, jsLe_some_some, jsGt_some_some,
    Bool.or_eq_true, decide_eq_true_eq]
  split_ifs with h1 h2 h3
  · simp only [Bool.false_eq_true, false_iff]
    rintro ⟨hv, _, ht, _⟩
    rcases h1 with h | h <;> linarith
  · simp only [Bool.false_eq_true, false_iff]
    rintro ⟨_, hv, _, _⟩
    linarith
  · simp only [Bool.false_eq_true, false_iff]
    rintro ⟨_, _, _, ht⟩
    linarith
  · push_neg at h1 h2 h3
    simp only [true_iff]
    exact ⟨h1.1, h2, h1.2, h3⟩

theorem validateVoltageTime_none_left (t : ℝ) :
    validateVoltageTime none (some t) = true ↔ 0 < t ∧ t ≤ 10 := by
  simp only [validateVoltageTime, jsLe, jsGt, Bool.false_or, decide_eq_true_eq,
    Bool.false_eq_true]
  split_ifs with h1 h2 h3
  · simp only [Bool.false_eq_true, false_iff]
    rintro ⟨ht, _⟩; linarith
  · exact h2.elim
  · simp only [Bool.false_eq_true, false_iff]
    rintro ⟨_, ht⟩; linarith
  · push_neg at h1 h3
    simp only [true_iff]
    exact ⟨h1, h3⟩

theorem validateVoltageTime_none_right (v : ℝ) :
    validateVoltageTime (some v) none = true ↔ 0 < v ∧ v ≤ 400 := by
  simp only [validateVoltageTime, jsLe, jsGt, Bool.or_false, decide_eq_true_eq,
    Bool.false_eq_true]
  split_ifs with h1 h2 h3
  · simp only [Bool.false_eq_true, false_iff]
    rintro ⟨hv, _⟩; linarith
  · simp only [Bool.false_eq_true, false_iff]
    rintro ⟨_, hv⟩; linarith
  · exact h3.elim
  · push_neg at h1 h2
    simp only [true_iff]
    exact ⟨h1, h2⟩

theorem validateVoltageTime_none_none : validateVoltageTime none none = true := by
  simp [validateVoltageTime, jsLe, jsGt]

/-! ## Claim C7 -/

/-- C7: for real (non-NaN) inputs, `validateVoltageTime` returns true iff
`0 < voltage ≤ 400` and `0 < time ≤ 10`; the boundary values 400 and 10
pass, while 400.01, 10.01 and non-positive values fail. -/
theorem C7_validateVoltageTime_range :
    (∀ v t : ℝ, validateVoltageTime (some v) (some t) = true ↔
      0 < v ∧ v ≤ 400 ∧ 0 < t ∧ t ≤ 10) ∧
    validateVoltageTime (some 400) (some 10) = true ∧
    validateVoltageTime (some 400.01) (some 1) = false ∧
    validateVoltageTime (some 1) (some 10.01) = false ∧
    validateVoltageTime (some 0) (some 1) = false ∧
    validateVoltageTime (some (-5)) (some 1) = false ∧
    validateVoltageTime (some 1) (some 0) = false := by
  refine ⟨validateVoltageTime_some_iff, ?_, ?_, ?_, ?_, ?_, ?_⟩
  · rw [validateVoltageTime_some_iff]; norm_num
  · rw [← Bool.not_eq_true, validateVoltageTime_some_iff]; norm_num
  · rw [← Bool.not_eq_true, validateVoltageTime_some_iff]; norm_num
  · rw [← Bool.not_eq_true, validateVoltageTime_some_iff]; norm_num
  · rw [← Bool.not_eq_true, validateVoltageTime_some_iff]; norm_num
  · rw [← Bool.not_eq_true, validateVoltageTime_some_iff]; norm_num

/-! ## Evaluation helpers for the conductor formulas -/

theorem conductorArea_eval (v i tt k b : ℝ)
    (hv : 0 < v) (hv4 : v ≤ 400) (ht : 0 < tt) (ht10 : tt ≤ 10)
    (hI : 0 < i) (hk : 0 < k) :
    calculateConductorAreaFromCurrent (some v) (some i) (some tt) (some k) (some b) =
      if Real.log ((250 + b) / (90 + b)) ≤ 0 ∨
          (i * 1000) ^ 2 * tt / (k ^ 2 * Real.log ((250 + b) / (90 + b))) ≤ 0 then none
      else
        some (Real.sqrt
          ((i * 1000) ^ 2 * tt / (k ^ 2 * Real.log ((250 + b) / (90 + b))))) := by
  have hval : validateVoltageTime (some v) (some tt) = true :=
    (validateVoltageTime_some_iff v tt).mpr ⟨hv, hv4, ht, ht10⟩
  have hik : ¬(i ≤ 0 ∨ k ≤ 0) := by push_neg; exact ⟨hI, hk⟩
  simp only [calculateConductorAreaFromCurrent, hval, Bool.true_eq_false,
    if_false, if_neg hik]
  rcases le_or_lt (Real.log ((250 + b) / (90 + b))) 0 with hln | hln
  · rw [if_pos hln, if_pos (Or.inl hln)]
  · rw [if_neg (not_le.mpr hln)]
    rcases le_or_lt ((i * 1000) ^ 2 * tt / (k ^ 2 * Real.log ((250 + b) / (90 + b)))) 0
      with hs | hs
    · rw [if_pos hs, if_pos (Or.inr hs)]
    · rw [if_neg (not_le.mpr hs), if_neg (by push_neg; exact ⟨hln, hs⟩)]

theorem conductorCurrent_eval (tt k b s : ℝ)
    (ht : 0 < tt) (hs : 0 < s) (hk : 0 < k)
    (hln : 0 < Real.log ((250 + b) / (90 + b))) :
    calculateConductorCurrentFromArea (some tt) (some k) (some b) (some s) =
      some (k * s * Real.sqrt (Real.log ((250 + b) / (90 + b)) / tt) / 1000) := by
  have hsk : ¬(s ≤ 0 ∨ k ≤ 0) := by push_neg; exact ⟨hs, hk⟩
  simp only [calculateConductorCurrentFromArea, if_neg (not_le.mpr ht), if_neg hsk,
    if_neg (not_le.mpr hln)]

/-! ## Claim C1 -/

/-- C1: for every input set passing the NaN, range and positivity guards,
`calculateConductorAreaFromCurrent` (with θi = 90, θf = 250) returns
`sqrt((I·1000)² · t / (K² · ln((250+β)/(90+β))))`, and returns the null
sentinel exactly when the log term is ≤ 0 or the squared area is ≤ 0. -/
theorem C1_conductor_area_formula (v i tt k b : ℝ)
    (hv : 0 < v) (hv4 : v ≤ 400) (ht : 0 < tt) (ht10 : tt ≤ 10)
    (hI : 0 < i) (hk : 0 < k) :
    calculateConductorAreaFromCurrent (some v) (some i) (some tt) (some k) (some b) =
      if Real.log ((250 + b) / (90 + b)) ≤ 0 ∨
          (i * 1000) ^ 2 * tt / (k ^ 2 * Real.log ((250 + b) / (90 + b))) ≤ 0 then none
      else
        some (Real.sqrt
          ((i * 1000) ^ 2 * tt / (k ^ 2 * Real.log ((250 + b) / (90 + b))))) :=
  conductorArea_eval v i tt k b hv hv4 ht ht10 hI hk

/-- Witness for C1 at voltage 11 kV, I = 25 kA, t = 1 s, K = 226, β = 234.5. -/
theorem C1_conductor_area_formula_witness :
    calculateConductorAreaFromCurrent (some 11) (some 25) (some 1) (some 226) (some 234.5) =
      some (Real.sqrt
        ((25 * 1000) ^ 2 * 1 / (226 ^ 2 * Real.log ((250 + 234.5) / (90 + 234.5))))) := by
  have h := C1_conductor_area_formula 11 25 1 226 234.5 (by norm_num) (by norm_num)
    (by norm_num) (by norm_num) (by norm_num) (by norm_num)
  rw [h, if_neg]
  push_neg
  have hln : 0 < Real.log ((250 + 234.5) / (90 + 234.5)) := Real.log_pos (by norm_num)
  exact ⟨hln, div_pos (by norm_num) (mul_pos (by norm_num) hln)⟩

/-! ## Claim C2 -/

/-- C2: for every valid input set with a positive log term, feeding the area
produced by `calculateConductorAreaFromCurrent` into
`calculateConductorCurrentFromArea` (same t, K, β) returns exactly the
original current (the real-arithmetic model round-trips exactly, hence in
particular within floating-point tolerance). -/
theorem C2_roundtrip (v i tt k b : ℝ)
    (hv : 0 < v) (hv4 : v ≤ 400) (ht : 0 < tt) (ht10 : tt ≤ 10)
    (hI : 0 < i) (hk : 0 < k)
    (hln : 0 < Real.log ((250 + b) / (90 + b))) :
    ∃ s : ℝ,
      calculateConductorAreaFromCurrent (some v) (some i) (some tt) (some k) (some b) =
        some s ∧
      calculateConductorCurrentFromArea (some tt) (some k) (some b) (some s) = some i := by
  have hSsq : 0 < (i * 1000) ^ 2 * tt / (k ^ 2 * Real.log ((250 + b) / (90 + b))) := by
    have : 0 < k ^ 2 * Real.log ((250 + b) / (90 + b)) := by positivity
    positivity
  refine ⟨Real.sqrt ((i * 1000) ^ 2 * tt / (k ^ 2 * Real.log ((250 + b) / (90 + b)))),
    ?_, ?_⟩
  · rw [conductorArea_eval v i tt k b hv hv4 ht ht10 hI hk,
      if_neg (by push_neg; exact ⟨hln, hSsq⟩)]
  · rw [conductorCurrent_eval tt k b _ ht (Real.sqrt_pos.mpr hSsq) hk hln]
    congr 1
    have e1 : Real.sqrt ((i * 1000) ^ 2 * tt / (k ^ 2 * Real.log ((250 + b) / (90 + b)))) *
        Real.sqrt (Real.log ((250 + b) / (90 + b)) / tt) = i * 1000 / k := by
      rw [← Real.sqrt_mul hSsq.le]
      have e2 : (i * 1000) ^ 2 * tt / (k ^ 2 * Real.log ((250 + b) / (90 + b))) *
          (Real.log ((250 + b) / (90 + b)) / tt) = (i * 1000 / k) ^ 2 := by
        field_simp
        ring
      rw [e2, Real.sqrt_sq (by positivity)]
    rw [mul_assoc, e1]
    field_simp

/-- Witness for C2 at voltage 11 kV, I = 25 kA, t = 1 s, K = 226, β = 234.5. -/
theorem C2_roundtrip_witness :
    calculateConductorAreaFromCurrent (some 11) (some 25) (some 1) (some 226) (some 234.5) =
      some (Real.sqrt
        ((25 * 1000) ^ 2 * 1 / (226 ^ 2 * Real.log ((250 + 234.5) / (90 + 234.5))))) ∧
    calculateConductorCurrentFromArea (some 1) (some 226) (some 234.5)
      (some (Real.sqrt
        ((25 * 1000) ^ 2 * 1 / (226 ^ 2 * Real.log ((250 + 234.5) / (90 + 234.5)))))) =
      some 25 := by
  obtain ⟨s, h1, h2⟩ := C2_roundtrip 11 25 1 226 234.5 (by norm_num) (by norm_num)
    (by norm_num) (by norm_num) (by norm_num) (by norm_num) (Real.log_pos (by norm_num))
  have hlnpos : (0 : ℝ) < Real.log ((250 + 234.5) / (90 + 234.5)) :=
    Real.log_pos (by norm_num)
  have he : calculateConductorAreaFromCurrent (some 11) (some 25) (some 1) (some 226)
      (some 234.5) =
      some (Real.sqrt
        ((25 * 1000) ^ 2 * 1 / (226 ^ 2 * Real.log ((250 + 234.5) / (90 + 234.5))))) := by
    rw [conductorArea_eval 11 25 1 226 234.5 (by norm_num) (by norm_num) (by norm_num)
      (by norm_num) (by norm_num) (by norm_num), if_neg]
    push_neg
    exact ⟨hlnpos, div_pos (by norm_num) (mul_pos (by norm_num) hlnpos)⟩
  have hs : s = Real.sqrt
      ((25 * 1000) ^ 2 * 1 / (226 ^ 2 * Real.log ((250 + 234.5) / (90 + 234.5)))) := by
    have := h1.symm.trans he
    exact Option.some_injective ℝ this
  subst hs
  exact ⟨he, h2⟩

/-! ## Claim C3: numeric bounds for the copper example -/

theorem copper_lnTerm_lower :
    (2 / 5 : ℝ) ≤ Real.log ((250 + 234.5) / (90 + 234.5)) := by
  have hx : (0 : ℝ) < (250 + 234.5) / (90 + 234.5) := by norm_num
  rw [Real.le_log_iff_exp_le hx]
  have h5 := Real.exp_bound' (x := (2 / 5 : ℝ)) (by norm_num) (by norm_num)
    (n := 5) (by norm_num)
  refine h5.trans ?_
  norm_num [Finset.sum_range_succ, Nat.factorial]

theorem copper_lnTerm_upper :
    Real.log ((250 + 234.5) / (90 + 234.5)) ≤ (201 / 500 : ℝ) := by
  have hx : (0 : ℝ) < (250 + 234.5) / (90 + 234.5) := by norm_num
  rw [Real.log_le_iff_le_exp hx]
  have h4 := Real.sum_le_exp_of_nonneg (x := (201 / 500 : ℝ)) (by norm_num) 4
  refine le_trans ?_ h4
  norm_num [Finset.sum_range_succ, Nat.factorial]

theorem copper_area_bounds :
    calculateConductorAreaFromCurrent (some 11) (some 25) (some 1) (some 226) (some 234.5) =
      some (Real.sqrt
        ((25 * 1000) ^ 2 * 1 / (226 ^ 2 * Real.log ((250 + 234.5) / (90 + 234.5))))) ∧
    (174.4 : ℝ) < Real.sqrt
        ((25 * 1000) ^ 2 * 1 / (226 ^ 2 * Real.log ((250 + 234.5) / (90 + 234.5)))) ∧
    Real.sqrt
        ((25 * 1000) ^ 2 * 1 / (226 ^ 2 * Real.log ((250 + 234.5) / (90 + 234.5)))) < 175 := by
  have hln1 := copper_lnTerm_lower
  have hln2 := copper_lnTerm_upper
  have hlnpos : (0 : ℝ) < Real.log ((250 + 234.5) / (90 + 234.5)) := by linarith
  refine ⟨?_, ?_, ?_⟩
  · rw [conductorArea_eval 11 25 1 226 234.5 (by norm_num) (by norm_num) (by norm_num)
      (by norm_num) (by norm_num) (by norm_num), if_neg]
    push_neg
    exact ⟨hlnpos, div_pos (by norm_num) (mul_pos (by norm_num) hlnpos)⟩
  · rw [Real.lt_sqrt (by norm_num)]
    rw [lt_div_iff₀ (by positivity)]
    nlinarith
  · rw [Real.sqrt_lt' (by norm_num)]
    rw [div_lt_iff₀ (by positivity)]
    nlinarith

/-- C3 counterexample: with K = 226, β = 234.5, θi = 90, θf = 250, I = 25 kA,
t = 1 s (and a valid voltage of 11 kV), `calculateConductorAreaFromCurrent`
returns a value strictly below 200 mm², so it is not approximately 218.4 mm². -/
theorem C3_counterexample :
    calculateConductorAreaFromCurrent (some 11) (some 25) (some 1) (some 226) (some 234.5) =
      some (Real.sqrt
        ((25 * 1000) ^ 2 * 1 / (226 ^ 2 * Real.log ((250 + 234.5) / (90 + 234.5))))) ∧
    Real.sqrt
        ((25 * 1000) ^ 2 * 1 / (226 ^ 2 * Real.log ((250 + 234.5) / (90 + 234.5)))) < 200 := by
  obtain ⟨he, _, hu⟩ := copper_area_bounds
  exact ⟨he, by linarith⟩

/-- C3 amended: for K = 226, β = 234.5, θi = 90, θf = 250, I = 25 kA, t = 1 s
(copper), `calculateConductorAreaFromCurrent` returns approximately
174.7 mm² (strictly between 174.4 and 175), not 218.4 mm². -/
theorem C3_amended_copper_example :
    calculateConductorAreaFromCurrent (some 11) (some 25) (some 1) (some 226) (some 234.5) =
      some (Real.sqrt
        ((25 * 1000) ^ 2 * 1 / (226 ^ 2 * Real.log ((250 + 234.5) / (90 + 234.5))))) ∧
    (174.4 : ℝ) < Real.sqrt
        ((25 * 1000) ^ 2 * 1 / (226 ^ 2 * Real.log ((250 + 234.5) / (90 + 234.5)))) ∧
    Real.sqrt
        ((25 * 1000) ^ 2 * 1 / (226 ^ 2 * Real.log ((250 + 234.5) / (90 + 234.5)))) < 175 := by
  exact copper_area_bounds

/-! ## Constant tables (script_enhanced.js lines 35-87) -/

/-- An entry of Table I (sheath or conductor metals). -/
structure MaterialConstant where
  K : ℝ
  beta : ℝ
  sigmaC : ℝ
  rho20 : ℝ

/-- Table `TABLE_I_SHEATHS` (lines 38-43), keyed by material name; an unknown key
gives `none` (the JavaScript `undefined`). -/
def TABLE_I_SHEATHS : String → Option MaterialConstant
  | "lead" => some ⟨41, 230, 1.45e6, 21.4e-8⟩
  | "steel" => some ⟨78, 202, 3.8e6, 13.8e-8⟩
  | "bronze" => some ⟨180, 313, 3.4e6, 3.5e-8⟩
  | "aluminium" => some ⟨148, 228, 2.5e6, 2.84e-8⟩
  | _ => none

/-- Table `TABLE_I_CONDUCTORS` (lines 46-49). -/
def TABLE_I_CONDUCTORS : String → Option MaterialConstant
  | "copper" => some ⟨226, 234.5, 3.45e6, 1.7241e-8⟩
  | "aluminium" => some ⟨148, 228, 2.5e6, 2.8264e-8⟩
  | _ => none

/-- An entry of the thermal-constants table (ρ, σ). -/
structure ThermalConstant where
  rho : ℝ
  sigma : ℝ

/-- The two groups of `THERMAL_CONSTANTS` (lines 52-81). -/
inductive MaterialType
  | insulating
  | protective

/-- Model of `getThermalConstants(materialType, materialName, voltageKv)`
(lines 675-693): direct entries are returned as-is; the voltage-tiered
entries (insulating PVC/EPR at 3 kV, protective PVC at 35 kV) are resolved
by the voltage; anything else is `null`. -/
noncomputable def getThermalConstants :
    MaterialType → String → ℝ → Option ThermalConstant
  | .insulating, "impregnated-paper-solid", _ => some ⟨6.0, 2.0e6⟩
  | .insulating, "impregnated-paper-oil-filled", _ => some ⟨5.0, 2.0e6⟩
  | .insulating, "oil", _ => some ⟨7.0, 1.7e6⟩
  | .insulating, "PE", _ => some ⟨3.5, 2.4e6⟩
  | .insulating, "XLPE", _ => some ⟨3.5, 2.4e6⟩
  | .insulating, "PVC", voltageKv =>
      if voltageKv ≤ 3 then some ⟨5.0, 1.7e6⟩ else some ⟨6.0, 1.7e6⟩
  | .insulating, "EPR", voltageKv =>
      if voltageKv ≤ 3 then some ⟨3.5, 2.0e6⟩ else some ⟨5.0, 2.0e6⟩
  | .insulating, "butyl-rubber", _ => some ⟨5.0, 2.0e6⟩
  | .insulating, "natural-rubber", _ => some ⟨5.0, 2.0e6⟩
  | .protective, "compounded-jute", _ => some ⟨6.0, 2.0e6⟩
  | .protective, "rubber-sandwich", _ => some ⟨6.0, 2.0e6⟩
  | .protective, "polychloroprene", _ => some ⟨5.5, 2.0e6⟩
  | .protective, "PVC", voltageKv =>
      if voltageKv ≤ 35 then some ⟨5.0, 1.7e6⟩ else some ⟨6.0, 1.7e6⟩
  | .protective, "PVC-bitumen", _ => some ⟨6.0, 1.7e6⟩
  | .protective, "PE", _ => some ⟨3.5, 2.4e6⟩
  | _, _, _ => none

/-- Model of `calculateM` (lines 695-739):
`M = (sqrt(σ2/ρ2) + sqrt(σ3/ρ3)) / (2·σ1·δ·1e-3) · F`, with F = 1.0 when
`isOilFilled === "yes"` and 0.7 otherwise; `null` when a lookup misses or
the denominator is zero. -/
noncomputable def calculateM (insulationMaterial outerSheathMaterial : String)
    (sheathThickness : ℝ) (sheathMaterial : String) (voltageKv : ℝ)
    (isOilFilled : String) : Option ℝ :=
  match getThermalConstants .insulating insulationMaterial voltageKv,
        getThermalConstants .protective outerSheathMaterial voltageKv with
  | some insulation, some outerSheath =>
    match TABLE_I_SHEATHS sheathMaterial with
    | some sheath =>
      let sigma2 := insulation.sigma
      let rho2 := insulation.rho
      let sigma3 := outerSheath.sigma
      let rho3 := outerSheath.rho
      let sigma1 := sheath.sigmaC
      let delta := sheathThickness
      let F : ℝ := if isOilFilled = "yes" then 1.0 else 0.7
      let numerator := Real.sqrt (sigma2 / rho2) + Real.sqrt (sigma3 / rho3)
      let denom := 2 * sigma1 * delta * 1e-3
      if denom = 0 then none else some (numerator / denom * F)
    | none => none
  | _, _ => none

/-- Model of `calculateEpsilon(M, t)` (lines 741-747): `null` when `M` is null, `t`
is `NaN` or `t ≤ 0`; otherwise the cubic polynomial in `M·sqrt(t)`. -/
noncomputable def calculateEpsilon (M : Option ℝ) (t : JSNum) : Option ℝ :=
  match M, t with
  | some m, some tt =>
    if tt ≤ 0 then none
    else
      let MsqrtT := m * Real.sqrt tt
      some (1 + 0.61 * MsqrtT - 0.069 * MsqrtT ^ 2 + 0.0043 * MsqrtT ^ 3)
  | _, _ => none

/-- Model of `calculateSheathAdiabaticArea` (lines 749-770): same formula shape as the
conductor area, but with the sheath metal's K and β from Table I and
user-supplied θi, θf. -/
noncomputable def calculateSheathAdiabaticArea (I_AD_kA t : ℝ)
    (sheathMaterial : String) (theta_i theta_f : ℝ) : Option ℝ :=
  match TABLE_I_SHEATHS sheathMaterial with
  | none => none
  | some mat =>
    let lnTerm := Real.log ((theta_f + mat.beta) / (theta_i + mat.beta))
    if lnTerm ≤ 0 then none
    else
      let s_sq := (I_AD_kA * 1000) ^ 2 * t / (mat.K ^ 2 * lnTerm)
      if s_sq ≤ 0 then none else some (Real.sqrt s_sq)

/-- The three outputs of `updateSheathGeometry`: the two derived display
fields (`none` models a cleared, empty field) and whether the two diameter
inputs carry the red invalid-border flag. -/
structure GeomFields where
  thickness : Option ℝ
  area : Option ℝ
  flagged : Bool

/-- Model of `updateSheathGeometry` (lines 637-665) as a pure function of the two
diameter fields: border colours are reset, then, when both parse to
positive numbers, either the derived fields are set (Do > Di) or they are
cleared and the red flag is set; on a `NaN` or non-positive diameter the
derived fields are cleared without setting the flag. -/
noncomputable def updateSheathGeometry (Do Di : JSNum) : GeomFields :=
  match Do, Di with
  | some d_o, some d_i =>
    if 0 < d_o ∧ 0 < d_i then
      if d_i < d_o then
        { thickness := some ((d_o - d_i) / 2)
          area := some (Real.pi / 4 * (d_o * d_o - d_i * d_i))
          flagged := false }
      else { thickness := none, area := none, flagged := true }
    else { thickness := none, area := none, flagged := false }
  | _, _ => { thickness := none, area := none, flagged := false }

/-! ## Claim C5 -/

/-- C5: whenever all three table lookups succeed and the denominator
`2·σ1·δ·1e-3` is non-zero, `calculateM` in the current workflow
(`isOilFilled = "no"`, so F = 0.7) returns
`0.7 · (sqrt(σ2/ρ2) + sqrt(σ3/ρ3)) / (2·σ1·δ·1e-3)`; and it returns the
null sentinel exactly when a material lookup misses or the denominator is
zero. -/
theorem C5_M_factor (ins out sm : String) (delta v : ℝ) :
    (∀ ic oc : ThermalConstant, ∀ sc : MaterialConstant,
      getThermalConstants .insulating ins v = some ic →
      getThermalConstants .protective out v = some oc →
      TABLE_I_SHEATHS sm = some sc →
      2 * sc.sigmaC * delta * 1e-3 ≠ 0 →
      calculateM ins out delta sm v "no" =
        some (0.7 * (Real.sqrt (ic.sigma / ic.rho) + Real.sqrt (oc.sigma / oc.rho)) /
          (2 * sc.sigmaC * delta * 1e-3))) ∧
    (calculateM ins out delta sm v "no" = none ↔
      getThermalConstants .insulating ins v = none ∨
      getThermalConstants .protective out v = none ∨
      TABLE_I_SHEATHS sm = none ∨
      ∃ sc : MaterialConstant, TABLE_I_SHEATHS sm = some sc ∧
        2 * sc.sigmaC * delta * 1e-3 = 0) := by
  constructor
  · intro ic oc sc hic hoc hsc hd
    simp only [calculateM, hic, hoc, hsc]
    rw [if_neg (by decide : ¬("no" : String) = "yes"), if_neg hd]
    congr 1
    ring
  · cases hic : getThermalConstants .insulating ins v with
    | none => simp [calculateM, hic]
    | some ic =>
      cases hoc : getThermalConstants .protective out v with
      | none => simp [calculateM, hic, hoc]
      | some oc =>
        cases hsc : TABLE_I_SHEATHS sm with
        | none => simp [calculateM, hic, hoc, hsc]
        | some sc =>
          simp only [calculateM, hic, hoc, hsc, reduceCtorEq, false_or,
            Option.some.injEq]
          split_ifs with hd
          · simp only [true_iff]
            exact ⟨sc, rfl, hd⟩
          · simp only [reduceCtorEq, false_iff]
            push_neg
            rintro sc' rfl
            exact hd

/-- Witness for C5: XLPE insulation, PE outer sheath, lead sheath metal,
wall thickness 2 mm, 11 kV. -/
theorem C5_M_factor_witness :
    calculateM "XLPE" "PE" 2 "lead" 11 "no" =
      some (0.7 * (Real.sqrt (2.4e6 / 3.5) + Real.sqrt (2.4e6 / 3.5)) /
        (2 * 1.45e6 * 2 * 1e-3)) := by
  have h := (C5_M_factor "XLPE" "PE" "lead" 2 11).1 ⟨3.5, 2.4e6⟩ ⟨3.5, 2.4e6⟩
    ⟨41, 230, 1.45e6, 21.4e-8⟩ rfl rfl rfl (by norm_num)
  exact h

/-! ## Claim C6 -/

/-- C6 counterexample: with Do = -1 (non-positive) and Di = 1, the geometry
resolver clears both derived fields but leaves the diameter inputs
unflagged (their borders are reset, not set to red), contradicting the
claim that every invalid pair flags the inputs. -/
theorem C6_counterexample :
    (updateSheathGeometry (some (-1)) (some 1)).thickness = none ∧
    (updateSheathGeometry (some (-1)) (some 1)).area = none ∧
    (updateSheathGeometry (some (-1)) (some 1)).flagged = false := by
  norm_num [updateSheathGeometry]

/-- C6 amended: for `Do > Di > 0` the resolver sets
`thickness = (Do - Di)/2` and `area = (π/4)(Do² - Di²)`; when both
diameters are positive numbers but `Do ≤ Di` both derived fields are
cleared to empty and the diameter inputs are flagged invalid; when either
diameter is `NaN` or non-positive both derived fields are cleared to empty
(not set to zero) but the inputs are not flagged. -/
theorem C6_amended_geometry (Do Di : JSNum) :
    (∀ d_o d_i : ℝ, Do = some d_o → Di = some d_i → 0 < d_i → d_i < d_o →
      updateSheathGeometry Do Di =
        { thickness := some ((d_o - d_i) / 2)
          area := some (Real.pi / 4 * (d_o * d_o - d_i * d_i))
          flagged := false }) ∧
    (∀ d_o d_i : ℝ, Do = some d_o → Di = some d_i → 0 < d_o → 0 < d_i → d_o ≤ d_i →
      updateSheathGeometry Do Di =
        { thickness := none, area := none, flagged := true }) ∧
    ((Do = none ∨ Di = none ∨ (∃ x, Do = some x ∧ x ≤ 0) ∨ (∃ x, Di = some x ∧ x ≤ 0)) →
      updateSheathGeometry Do Di =
        { thickness := none, area := none, flagged := false }) := by
  refine ⟨?_, ?_, ?_⟩
  · rintro d_o d_i rfl rfl hdi hlt
    have hdo : 0 < d_o := lt_trans hdi hlt
    simp only [updateSheathGeometry, if_pos (And.intro hdo hdi), if_pos hlt]
  · rintro d_o d_i rfl rfl hdo hdi hle
    simp only [updateSheathGeometry, if_pos (And.intro hdo hdi),
      if_neg (not_lt.mpr hle)]
  · rintro (rfl | rfl | ⟨x, rfl, hx⟩ | ⟨x, rfl, hx⟩)
    · rfl
    · cases Do with
      | none => rfl
      | some d_o => rfl
    · cases Di with
      | none => rfl
      | some d_i =>
        simp only [updateSheathGeometry]
        rw [if_neg]
        rintro ⟨hxpos, _⟩
        exact absurd hx (not_le.mpr hxpos)
    · cases Do with
      | none => rfl
      | some d_o =>
        simp only [updateSheathGeometry]
        rw [if_neg]
        rintro ⟨_, hxpos⟩
        exact absurd hx (not_le.mpr hxpos)

/-- Witness for C6: Do = 10, Di = 6 gives thickness 2 and area 16π. -/
theorem C6_amended_geometry_witness :
    updateSheathGeometry (some 10) (some 6) =
      { thickness := some 2, area := some (Real.pi / 4 * 64), flagged := false } := by
  have h := (C6_amended_geometry (some 10) (some 6)).1 10 6 rfl rfl (by norm_num)
    (by norm_num)
  rw [h]
  norm_num [GeomFields.mk.injEq]

/-! ## Claim C8 -/

/-- C8: the non-adiabatic factor computed by `calculateEpsilon` is strictly
increasing in `x = M·sqrt(t)` on `[0, 2]`: whenever two calls with the same
`t > 0` have `0 ≤ M1·sqrt(t) < M2·sqrt(t) ≤ 2`, the first result is
strictly below the second. -/
theorem C8_epsilon_monotone (M1 M2 tt : ℝ) (ht : 0 < tt)
    (h0 : 0 ≤ M1 * Real.sqrt tt) (hlt : M1 * Real.sqrt tt < M2 * Real.sqrt tt)
    (h2 : M2 * Real.sqrt tt ≤ 2) :
    ∀ e1 e2 : ℝ, calculateEpsilon (some M1) (some tt) = some e1 →
      calculateEpsilon (some M2) (some tt) = some e2 → e1 < e2 := by
  intro e1 e2 h1 h2'
  simp only [calculateEpsilon, if_neg (not_le.mpr ht), Option.some.injEq] at h1 h2'
  set x1 := M1 * Real.sqrt tt with hx1
  set x2 := M2 * Real.sqrt tt with hx2
  have hx2n : 0 ≤ x2 := le_trans h0 hlt.le
  have hx1u : x1 ≤ 2 := le_trans hlt.le h2
  have hfac : 0 < 0.61 - 0.069 * (x1 + x2) + 0.0043 * (x1 ^ 2 + x1 * x2 + x2 ^ 2) := by
    nlinarith [sq_nonneg x1, sq_nonneg x2, mul_nonneg h0 hx2n]
  have hprod := mul_pos (sub_pos.mpr hlt) hfac
  subst h1 h2'
  nlinarith [hprod]

/-- Witness for C8: t = 1, M1 = 0, M2 = 2 give ε = 1 < ε = 1.9784. -/
theorem C8_epsilon_monotone_witness :
    calculateEpsilon (some 0) (some 1) = some 1 ∧
    calculateEpsilon (some 2) (some 1) = some 1.9784 ∧ (1 : ℝ) < 1.9784 := by
  have he1 : calculateEpsilon (some 0) (some 1) = some 1 := by
    norm_num [calculateEpsilon, Real.sqrt_one]
  have he2 : calculateEpsilon (some 2) (some 1) = some 1.9784 := by
    norm_num [calculateEpsilon, Real.sqrt_one]
  exact ⟨he1, he2, C8_epsilon_monotone 0 2 1 (by norm_num)
    (by rw [Real.sqrt_one]; norm_num) (by rw [Real.sqrt_one]; norm_num)
    (by rw [Real.sqrt_one]; norm_num) 1 1.9784 he1 he2⟩

/-! ## Form submission handlers (state + report bundles) -/

/-- Pass/fail verdict emitted by a submit handler. -/
inductive Verdict
  | pass
  | undersized

/-- The `conductorData` report bundle (lines 591-604 / 615-628).  Numeric
fields keep the raw parsed `JSNum` values the code stores. -/
structure ConductorBundle where
  voltage : JSNum
  area : JSNum
  material : String
  insulation : String
  outer_sheath : String
  scc_required : JSNum
  time : JSNum
  theta_i : ℝ
  theta_f : ℝ
  beta : JSNum
  k_value : JSNum
  i_ad : JSNum

/-- The `sheathData` report bundle (lines 903-930).  All numeric inputs are
non-NaN on the success path (the combined guard has already run), so the
fields are plain reals; the table-derived fields use the code's fallback
defaults when a lookup misses. -/
structure SheathBundle where
  voltage : ℝ
  conductor_area : ℝ
  material : String
  sheath_material : String
  insulation : String
  outer_sheath : String
  thickness : ℝ
  inner_d : ℝ
  outer_d : ℝ
  sheath_area : ℝ
  scc_required : ℝ
  time : ℝ
  theta_i : ℝ
  theta_f : ℝ
  beta : ℝ
  k_value : ℝ
  i_ad : ℝ
  sigma1 : ℝ
  sigma2 : ℝ
  sigma3 : ℝ
  rho2 : ℝ
  rho3 : ℝ
  f_factor : ℝ
  m_factor : ℝ
  epsilon : ℝ
  i_non_ad : ℝ

/-- The module-level mutable state of the script (lines 18-21). -/
structure ProgState where
  conductorData : Option ConductorBundle
  sheathData : Option SheathBundle
  conductorCalculated : Bool
  sheathCalculated : Bool

/-- The raw `givenConductorArea` text field: either the empty string, or a
nonempty string together with its `parseFloat` value (`none` = `NaN`).
The conductor handler tests `S_given_str !== ""` separately from the
parsed value. -/
inductive AreaField
  | empty
  | filled (parsed : JSNum)

/-- Value of `parseFloat` on the raw field. -/
def AreaField.parse : AreaField → JSNum
  | .empty => none
  | .filled p => p

/-- The `I_AD` recomputation stored in the conductor bundle
(lines 585-588): `K · S_given · sqrt(lnTerm / t) / 1000`, propagating `NaN`
from any of the raw inputs. -/
noncomputable def conductorIad (K beta t : JSNum) (S_given : ℝ) : JSNum := do
  let k ← K
  let b ← beta
  let tt ← t
  pure (k * S_given * Real.sqrt (Real.log ((250 + b) / (90 + b)) / tt) / 1000)

/-- The conductor form submit handler (lines 543-634) as a state
transformer.  The second component is the pass/fail verdict event emitted
in `area-from-current` mode when a candidate area was supplied, paired
with the required area it was compared against.  Every early `return`
leaves the state unchanged and emits nothing. -/
noncomputable def conductorSubmit (mode : String) (sgiven : AreaField)
    (voltageKv I_AD_kA t K beta : JSNum)
    (material insulation outerSheath : String)
    (st : ProgState) : ProgState × Option (ℝ × Verdict) :=
  if mode = "area-from-current" then
    match calculateConductorAreaFromCurrent voltageKv I_AD_kA t K beta with
    | none => (st, none)
    | some S_required =>
      match sgiven with
      | .empty =>
        ({ st with
            conductorData := some
              { voltage := voltageKv
                area := some S_required
                material := material
                insulation := insulation
                outer_sheath := outerSheath
                scc_required := I_AD_kA
                time := t
                theta_i := 90
                theta_f := 250
                beta := beta
                k_value := K
                i_ad := conductorIad K beta t S_required }
            conductorCalculated := true }, none)
      | .filled p =>
        match p with
        | none => (st, none)
        | some sg =>
          if sg ≤ 0 then (st, none)
          else
            ({ st with
                conductorData := some
                  { voltage := voltageKv
                    area := some sg
                    material := material
                    insulation := insulation
                    outer_sheath := outerSheath
                    scc_required := I_AD_kA
                    time := t
                    theta_i := 90
                    theta_f := 250
                    beta := beta
                    k_value := K
                    i_ad := conductorIad K beta t sg }
                conductorCalculated := true },
              some (S_required,
                if S_required ≤ sg then Verdict.pass else Verdict.undersized))
  else
    match calculateConductorCurrentFromArea t K beta (AreaField.parse sgiven) with
    | none => (st, none)
    | some iCalc =>
      ({ st with
          conductorData := some
            { voltage := voltageKv
              area := AreaField.parse sgiven
              material := material
              insulation := insulation
              outer_sheath := outerSheath
              scc_required := I_AD_kA
              time := t
              theta_i := 90
              theta_f := 250
              beta := beta
              k_value := K
              i_ad := some iCalc }
          conductorCalculated := true }, none)

/-- The outcome displayed by a successful sheath submission. -/
structure SheathOutcome where
  s_adiab : ℝ
  epsilon : ℝ
  s_required : ℝ
  verdict : Verdict

/-- The sheath form submit handler (lines 773-946) as a state transformer:
combined missing/NaN guard, voltage/time validation, positive current,
diameter consistency, then the `s_adiab` → `M` → `ε` chain; on success the
`sheathData` bundle is stored, `sheathCalculated` set, and the outcome
(with `s_required = s_adiab · ε` and the boundary-inclusive verdict)
emitted.  Every early `return` leaves the state unchanged. -/
noncomputable def sheathSubmit (sheathMaterial : String)
    (voltageKv I_AD_kA t theta_i theta_f Do Di sheathThickness s_given : JSNum)
    (insulationMaterial outerSheathMaterial : String)
    (conductorAreaField : JSNum) (conductorMaterial : String)
    (st : ProgState) : ProgState × Option SheathOutcome :=
  match voltageKv, I_AD_kA, t, theta_i, theta_f, Do, Di, sheathThickness, s_given with
  | some v, some i, some tt, some th_i, some th_f, some d_o, some d_i, some dl, some sg =>
    if sheathMaterial = "" ∨ insulationMaterial = "" ∨ outerSheathMaterial = "" then
      (st, none)
    else if validateVoltageTime (some v) (some tt) = false then (st, none)
    else if i ≤ 0 then (st, none)
    else if ¬(d_i < d_o ∧ 0 < d_o ∧ 0 < d_i) then (st, none)
    else
      match calculateSheathAdiabaticArea i tt sheathMaterial th_i th_f with
      | none => (st, none)
      | some s_adiab =>
        match calculateM insulationMaterial outerSheathMaterial dl sheathMaterial v "no" with
        | none => (st, none)
        | some M =>
          match calculateEpsilon (some M) (some tt) with
          | none => (st, none)
          | some eps =>
            ({ st with
                sheathData := some
                  { voltage := v
                    conductor_area := conductorAreaField.getD 0
                    material := conductorMaterial
                    sheath_material := sheathMaterial
                    insulation := insulationMaterial
                    outer_sheath := outerSheathMaterial
                    thickness := dl
                    inner_d := d_i
                    outer_d := d_o
                    sheath_area := sg
                    scc_required := i
                    time := tt
                    theta_i := th_i
                    theta_f := th_f
                    beta := ((TABLE_I_SHEATHS sheathMaterial).map MaterialConstant.beta).getD 228
                    k_value := ((TABLE_I_SHEATHS sheathMaterial).map MaterialConstant.K).getD 148
                    i_ad := s_adiab
                    sigma1 := ((TABLE_I_SHEATHS sheathMaterial).map
                      MaterialConstant.sigmaC).getD 2500000
                    sigma2 := ((getThermalConstants .insulating insulationMaterial v).map
                      ThermalConstant.sigma).getD 2400000
                    sigma3 := ((getThermalConstants .protective outerSheathMaterial v).map
                      ThermalConstant.sigma).getD 2400000
                    rho2 := ((getThermalConstants .insulating insulationMaterial v).map
                      ThermalConstant.rho).getD 3.5
                    rho3 := ((getThermalConstants .protective outerSheathMaterial v).map
                      ThermalConstant.rho).getD 3.5
                    f_factor := 0.7
                    m_factor := M
                    epsilon := eps
                    i_non_ad := eps * s_adiab }
                sheathCalculated := true },
              some
                { s_adiab := s_adiab
                  epsilon := eps
                  s_required := s_adiab * eps
                  verdict := if s_adiab * eps ≤ sg then Verdict.pass else Verdict.undersized })
  | _, _, _, _, _, _, _, _, _ => (st, none)

/-! ## Failure-path helpers for the submit handlers -/

theorem sheathSubmit_fail_of_guard (sm ins out cm : String)
    (v i tt th_i th_f d_o d_i dl sg : ℝ) (ca : JSNum) (st : ProgState)
    (hg : sm = "" ∨ ins = "" ∨ out = "" ∨
      validateVoltageTime (some v) (some tt) = false ∨ i ≤ 0 ∨
      ¬(d_i < d_o ∧ 0 < d_o ∧ 0 < d_i)) :
    sheathSubmit sm (some v) (some i) (some tt) (some th_i) (some th_f) (some d_o)
      (some d_i) (some dl) (some sg) ins out ca cm st = (st, none) := by
  simp only [sheathSubmit]
  split_ifs with h1 h2 h3 h4
  any_goals rfl
  exfalso
  rcases hg with h | h | h | h | h | h
  · exact h1 (Or.inl h)
  · exact h1 (Or.inr (Or.inl h))
  · exact h1 (Or.inr (Or.inr h))
  · exact h2 h
  · exact h3 h
  · exact h h4

theorem sheathSubmit_fail_of_adiab_none (sm ins out cm : String)
    (v i tt th_i th_f d_o d_i dl sg : ℝ) (ca : JSNum) (st : ProgState)
    (hsa : calculateSheathAdiabaticArea i tt sm th_i th_f = none) :
    sheathSubmit sm (some v) (some i) (some tt) (some th_i) (some th_f) (some d_o)
      (some d_i) (some dl) (some sg) ins out ca cm st = (st, none) := by
  simp only [sheathSubmit]
  split_ifs
  any_goals rfl
  rw [hsa]

theorem sheathSubmit_fail_of_M_none (sm ins out cm : String)
    (v i tt th_i th_f d_o d_i dl sg : ℝ) (ca : JSNum) (st : ProgState)
    (hM : calculateM ins out dl sm v "no" = none) :
    sheathSubmit sm (some v) (some i) (some tt) (some th_i) (some th_f) (some d_o)
      (some d_i) (some dl) (some sg) ins out ca cm st = (st, none) := by
  simp only [sheathSubmit]
  split_ifs
  any_goals rfl
  cases hsa : calculateSheathAdiabaticArea i tt sm th_i th_f with
  | none => rfl
  | some sa => rw [hM]

theorem sheathSubmit_fail_of_eps_none (sm ins out cm : String)
    (v i tt th_i th_f d_o d_i dl sg m : ℝ) (ca : JSNum) (st : ProgState)
    (hM : calculateM ins out dl sm v "no" = some m)
    (heps : calculateEpsilon (some m) (some tt) = none) :
    sheathSubmit sm (some v) (some i) (some tt) (some th_i) (some th_f) (some d_o)
      (some d_i) (some dl) (some sg) ins out ca cm st = (st, none) := by
  simp only [sheathSubmit]
  split_ifs
  any_goals rfl
  cases hsa : calculateSheathAdiabaticArea i tt sm th_i th_f with
  | none => rfl
  | some sa => simp only [hM, heps]

theorem conductorSubmit_fail_area_none (sgiven : AreaField) (v i tt k b : JSNum)
    (mat ins out : String) (st : ProgState)
    (h : calculateConductorAreaFromCurrent v i tt k b = none) :
    conductorSubmit "area-from-current" sgiven v i tt k b mat ins out st = (st, none) := by
  unfold conductorSubmit
  rw [if_pos rfl, h]

theorem conductorSubmit_fail_bad_given (p : JSNum) (v i tt k b : JSNum)
    (mat ins out : String) (st : ProgState)
    (hp : p = none ∨ ∃ x : ℝ, p = some x ∧ x ≤ 0) :
    conductorSubmit "area-from-current" (AreaField.filled p) v i tt k b mat ins out st =
      (st, none) := by
  unfold conductorSubmit
  rw [if_pos rfl]
  cases hc : calculateConductorAreaFromCurrent v i tt k b with
  | none => rfl
  | some S =>
    rcases hp with rfl | ⟨x, rfl, hx⟩
    · rfl
    · simp only [if_pos hx]

theorem conductorSubmit_fail_current_none (mode : String) (sgiven : AreaField)
    (v i tt k b : JSNum) (mat ins out : String) (st : ProgState)
    (hm : ¬mode = "area-from-current")
    (h : calculateConductorCurrentFromArea tt k b (AreaField.parse sgiven) = none) :
    conductorSubmit mode sgiven v i tt k b mat ins out st = (st, none) := by
  unfold conductorSubmit
  rw [if_neg hm, h]

/-! ## Claim C9 -/

/-- C9: whenever a validation guard or sub-computation of a form submission
fails, the handler returns with the program state exactly unchanged (in
particular the previously stored `conductorData` and `sheathData` bundles)
and no numeric result is emitted. -/
theorem C9_failure_preserves_state :
    (∀ mode : String, ∀ sgiven : AreaField, ∀ v i tt k b : JSNum,
      ∀ mat ins out : String, ∀ st : ProgState,
      (if mode = "area-from-current" then
          calculateConductorAreaFromCurrent v i tt k b = none ∨
            ∃ p : JSNum, sgiven = AreaField.filled p ∧
              (p = none ∨ ∃ x : ℝ, p = some x ∧ x ≤ 0)
        else calculateConductorCurrentFromArea tt k b (AreaField.parse sgiven) = none) →
      conductorSubmit mode sgiven v i tt k b mat ins out st = (st, none)) ∧
    (∀ sm ins out cm : String, ∀ v i tt th_i th_f d_o d_i dl sg ca : JSNum,
      ∀ st : ProgState,
      (v = none ∨ i = none ∨ tt = none ∨ th_i = none ∨ th_f = none ∨ d_o = none ∨
        d_i = none ∨ dl = none ∨ sg = none ∨
        sm = "" ∨ ins = "" ∨ out = "" ∨
        validateVoltageTime v tt = false ∨
        (∃ x : ℝ, i = some x ∧ x ≤ 0) ∨
        (∃ x y : ℝ, d_o = some x ∧ d_i = some y ∧ ¬(y < x ∧ 0 < x ∧ 0 < y)) ∨
        (∃ a c d e : ℝ, i = some a ∧ tt = some c ∧ th_i = some d ∧ th_f = some e ∧
          calculateSheathAdiabaticArea a c sm d e = none) ∨
        (∃ a c : ℝ, dl = some a ∧ v = some c ∧ calculateM ins out a sm c "no" = none) ∨
        (∃ a c m : ℝ, dl = some a ∧ v = some c ∧ tt = some m ∧
          ∃ mm : ℝ, calculateM ins out a sm c "no" = some mm ∧
            calculateEpsilon (some mm) (some m) = none)) →
      sheathSubmit sm v i tt th_i th_f d_o d_i dl sg ins out ca cm st = (st, none)) := by
  constructor
  · intro mode sgiven v i tt k b mat ins out st hfail
    by_cases hm : mode = "area-from-current"
    · subst hm
      rw [if_pos rfl] at hfail
      rcases hfail with h | ⟨p, rfl, hp⟩
      · exact conductorSubmit_fail_area_none sgiven v i tt k b mat ins out st h
      · exact conductorSubmit_fail_bad_given p v i tt k b mat ins out st hp
    · rw [if_neg hm] at hfail
      exact conductorSubmit_fail_current_none mode sgiven v i tt k b mat ins out st hm hfail
  · intro sm ins out cm v i tt th_i th_f d_o d_i dl sg ca st hfail
    rcases v with _ | v
    · rfl
    rcases i with _ | i
    · rfl
    rcases tt with _ | tt
    · rfl
    rcases th_i with _ | th_i
    · rfl
    rcases th_f with _ | th_f
    · rfl
    rcases d_o with _ | d_o
    · rfl
    rcases d_i with _ | d_i
    · rfl
    rcases dl with _ | dl
    · rfl
    rcases sg with _ | sg
    · rfl
    rcases hfail with h | h | h | h | h | h | h | h | h | h | h | h | h |
      ⟨x, hx, hle⟩ | ⟨x, y, hx, hy, hgeo⟩ | ⟨a, c, d, e, ha, hc, hd, he, hsa⟩ |
      ⟨a, c, ha, hc, hM⟩ | ⟨a, c, m, ha, hc, hm, mm, hmm, heps⟩
    · exact Option.noConfusion h
    · exact Option.noConfusion h
    · exact Option.noConfusion h
    · exact Option.noConfusion h
    · exact Option.noConfusion h
    · exact Option.noConfusion h
    · exact Option.noConfusion h
    · exact Option.noConfusion h
    · exact Option.noConfusion h
    · exact sheathSubmit_fail_of_guard sm ins out cm v i tt th_i th_f d_o d_i dl sg ca st
        (Or.inl h)
    · exact sheathSubmit_fail_of_guard sm ins out cm v i tt th_i th_f d_o d_i dl sg ca st
        (Or.inr (Or.inl h))
    · exact sheathSubmit_fail_of_guard sm ins out cm v i tt th_i th_f d_o d_i dl sg ca st
        (Or.inr (Or.inr (Or.inl h)))
    · exact sheathSubmit_fail_of_guard sm ins out cm v i tt th_i th_f d_o d_i dl sg ca st
        (Or.inr (Or.inr (Or.inr (Or.inl h))))
    · obtain rfl : i = x := Option.some_injective _ hx
      exact sheathSubmit_fail_of_guard sm ins out cm v i tt th_i th_f d_o d_i dl sg ca st
        (Or.inr (Or.inr (Or.inr (Or.inr (Or.inl hle)))))
    · obtain rfl : d_o = x := Option.some_injective _ hx
      obtain rfl : d_i = y := Option.some_injective _ hy
      exact sheathSubmit_fail_of_guard sm ins out cm v i tt th_i th_f d_o d_i dl sg ca st
        (Or.inr (Or.inr (Or.inr (Or.inr (Or.inr hgeo)))))
    · obtain rfl : i = a := Option.some_injective _ ha
      obtain rfl : tt = c := Option.some_injective _ hc
      obtain rfl : th_i = d := Option.some_injective _ hd
      obtain rfl : th_f = e := Option.some_injective _ he
      exact sheathSubmit_fail_of_adiab_none sm ins out cm v i tt th_i th_f d_o d_i dl sg
        ca st hsa
    · obtain rfl : dl = a := Option.some_injective _ ha
      obtain rfl : v = c := Option.some_injective _ hc
      exact sheathSubmit_fail_of_M_none sm ins out cm v i tt th_i th_f d_o d_i dl sg
        ca st hM
    · obtain rfl : dl = a := Option.some_injective _ ha
      obtain rfl : v = c := Option.some_injective _ hc
      obtain rfl : tt = m := Option.some_injective _ hm
      exact sheathSubmit_fail_of_eps_none sm ins out cm v i tt th_i th_f d_o d_i dl sg
        mm ca st hmm heps

/-! ## Claim C4 -/

/-- C4: in every successful sheath submission the emitted required area
equals `s_adiab · ε`, and in both stages the pass/fail verdict is
boundary-inclusive: the pass verdict is produced iff the actual (or
candidate) area is ≥ the required area, with equality counted as pass. -/
theorem C4_required_area_and_verdict :
    (∀ sm ins out cm : String, ∀ v i tt th_i th_f d_o d_i dl sg ca : JSNum,
      ∀ st st' : ProgState, ∀ o : SheathOutcome,
      sheathSubmit sm v i tt th_i th_f d_o d_i dl sg ins out ca cm st = (st', some o) →
      o.s_required = o.s_adiab * o.epsilon ∧
      ∀ x : ℝ, sg = some x → (o.verdict = Verdict.pass ↔ o.s_required ≤ x)) ∧
    (∀ mode : String, ∀ sgiven : AreaField, ∀ v i tt k b : JSNum,
      ∀ mat ins out : String, ∀ st st' : ProgState, ∀ req : ℝ, ∀ vd : Verdict,
      conductorSubmit mode sgiven v i tt k b mat ins out st = (st', some (req, vd)) →
      ∀ x : ℝ, AreaField.parse sgiven = some x → (vd = Verdict.pass ↔ req ≤ x)) := by
  constructor
  · intro sm ins out cm v i tt th_i th_f d_o d_i dl sg ca st st' o h
    rcases v with _ | v
    · simp only [sheathSubmit, Prod.mk.injEq, reduceCtorEq, and_false] at h
    rcases i with _ | i
    · simp only [sheathSubmit, Prod.mk.injEq, reduceCtorEq, and_false] at h
    rcases tt with _ | tt
    · simp only [sheathSubmit, Prod.mk.injEq, reduceCtorEq, and_false] at h
    rcases th_i with _ | th_i
    · simp only [sheathSubmit, Prod.mk.injEq, reduceCtorEq, and_false] at h
    rcases th_f with _ | th_f
    · simp only [sheathSubmit, Prod.mk.injEq, reduceCtorEq, and_false] at h
    rcases d_o with _ | d_o
    · simp only [sheathSubmit, Prod.mk.injEq, reduceCtorEq, and_false] at h
    rcases d_i with _ | d_i
    · simp only [sheathSubmit, Prod.mk.injEq, reduceCtorEq, and_false] at h
    rcases dl with _ | dl
    · simp only [sheathSubmit, Prod.mk.injEq, reduceCtorEq, and_false] at h
    rcases sg with _ | sg
    · simp only [sheathSubmit, Prod.mk.injEq, reduceCtorEq, and_false] at h
    simp only [sheathSubmit] at h
    by_cases h1 : sm = "" ∨ ins = "" ∨ out = ""
    · rw [if_pos h1] at h
      simp only [Prod.mk.injEq, reduceCtorEq, and_false] at h
    rw [if_neg h1] at h
    by_cases h2 : validateVoltageTime (some v) (some tt) = false
    · rw [if_pos h2] at h
      simp only [Prod.mk.injEq, reduceCtorEq, and_false] at h
    rw [if_neg h2] at h
    by_cases h3 : i ≤ 0
    · rw [if_pos h3] at h
      simp only [Prod.mk.injEq, reduceCtorEq, and_false] at h
    rw [if_neg h3] at h
    by_cases h4 : ¬(d_i < d_o ∧ 0 < d_o ∧ 0 < d_i)
    · rw [if_pos h4] at h
      simp only [Prod.mk.injEq, reduceCtorEq, and_false] at h
    rw [if_neg h4] at h
    cases hsa : calculateSheathAdiabaticArea i tt sm th_i th_f with
    | none => simp only [hsa, Prod.mk.injEq, reduceCtorEq, and_false] at h
    | some sa =>
      simp only [hsa] at h
      cases hM : calculateM ins out dl sm v "no" with
      | none => simp only [hM, Prod.mk.injEq, reduceCtorEq, and_false] at h
      | some M =>
        simp only [hM] at h
        cases heps : calculateEpsilon (some M) (some tt) with
        | none => simp only [heps, Prod.mk.injEq, reduceCtorEq, and_false] at h
        | some eps =>
          simp only [heps, Prod.mk.injEq, Option.some.injEq] at h
          obtain ⟨hst, ho⟩ := h
          subst ho
          refine ⟨rfl, ?_⟩
          rintro x hx
          obtain rfl : sg = x := Option.some_injective _ hx
          show (if sa * eps ≤ sg then Verdict.pass else Verdict.undersized) =
            Verdict.pass ↔ sa * eps ≤ sg
          split_ifs with hle
          · exact iff_of_true rfl hle
          · exact iff_of_false (by simp) hle
  · intro mode sgiven v i tt k b mat ins out st st' req vd h x hx
    by_cases hm : mode = "area-from-current"
    · subst hm
      cases sgiven with
      | empty =>
        unfold conductorSubmit at h
        rw [if_pos rfl] at h
        cases hc : calculateConductorAreaFromCurrent v i tt k b with
        | none => simp only [hc, Prod.mk.injEq, reduceCtorEq, and_false] at h
        | some S => simp only [hc, Prod.mk.injEq, reduceCtorEq, and_false] at h
      | filled p =>
        cases p with
        | none =>
          unfold conductorSubmit at h
          rw [if_pos rfl] at h
          cases hc : calculateConductorAreaFromCurrent v i tt k b with
          | none => simp only [hc, Prod.mk.injEq, reduceCtorEq, and_false] at h
          | some S => simp only [hc, Prod.mk.injEq, reduceCtorEq, and_false] at h
        | some sgv =>
          unfold conductorSubmit at h
          rw [if_pos rfl] at h
          cases hc : calculateConductorAreaFromCurrent v i tt k b with
          | none => simp only [hc, Prod.mk.injEq, reduceCtorEq, and_false] at h
          | some S =>
            simp only [hc] at h
            by_cases hle : sgv ≤ 0
            · rw [if_pos hle] at h
              simp only [Prod.mk.injEq, reduceCtorEq, and_false] at h
            · rw [if_neg hle] at h
              simp only [Prod.mk.injEq, Option.some.injEq] at h
              obtain ⟨hst, hreq, hvd⟩ := h
              obtain rfl : sgv = x := Option.some_injective _ hx
              subst hreq
              subst hvd
              split_ifs with hr
              · exact iff_of_true rfl hr
              · exact iff_of_false (by simp) hr
    · unfold conductorSubmit at h
      rw [if_neg hm] at h
      cases hcc : calculateConductorCurrentFromArea tt k b (AreaField.parse sgiven) with
      | none => simp only [hcc, Prod.mk.injEq, reduceCtorEq, and_false] at h
      | some iCalc => simp only [hcc, Prod.mk.injEq, reduceCtorEq, and_false] at h

/-! ## Concrete example state and evaluations for the witnesses -/

/-- The required conductor area for the copper example inputs. -/
noncomputable def SEx : ℝ :=
  Real.sqrt ((25 * 1000) ^ 2 * 1 / (226 ^ 2 * Real.log ((250 + 234.5) / (90 + 234.5))))

/-- A concrete stored conductor bundle (the one produced by the copper
example submission with a candidate area of 300 mm²). -/
noncomputable def condBundleEx : ConductorBundle :=
  { voltage := some 11
    area := some 300
    material := "copper"
    insulation := "XLPE"
    outer_sheath := "PE"
    scc_required := some 25
    time := some 1
    theta_i := 90
    theta_f := 250
    beta := some 234.5
    k_value := some 226
    i_ad := conductorIad (some 226) (some 234.5) (some 1) 300 }

/-- A concrete program state holding `condBundleEx`. -/
noncomputable def stEx : ProgState :=
  { conductorData := some condBundleEx
    sheathData := none
    conductorCalculated := true
    sheathCalculated := false }

theorem conductorSubmit_ex :
    conductorSubmit "area-from-current" (AreaField.filled (some 300)) (some 11) (some 25)
      (some 1) (some 226) (some 234.5) "copper" "XLPE" "PE" stEx =
      (stEx, some (SEx, Verdict.pass)) := by
  have harea : calculateConductorAreaFromCurrent (some 11) (some 25) (some 1) (some 226)
      (some 234.5) = some SEx := copper_area_bounds.1
  have h300 : SEx ≤ 300 := le_of_lt (lt_trans copper_area_bounds.2.2 (by norm_num))
  unfold conductorSubmit
  rw [if_pos rfl]
  simp only [harea]
  rw [if_neg (by norm_num : ¬(300 : ℝ) ≤ 0), if_pos h300]
  simp only [stEx, condBundleEx]

/-- Witness for C4: the copper example conductor submission with candidate
area 300 mm² emits the pass verdict, and pass is equivalent to
`required ≤ 300`. -/
theorem C4_required_area_and_verdict_witness :
    conductorSubmit "area-from-current" (AreaField.filled (some 300)) (some 11) (some 25)
      (some 1) (some 226) (some 234.5) "copper" "XLPE" "PE" stEx =
      (stEx, some (SEx, Verdict.pass)) ∧
    (Verdict.pass = Verdict.pass ↔ SEx ≤ 300) :=
  ⟨conductorSubmit_ex,
    C4_required_area_and_verdict.2 "area-from-current" (AreaField.filled (some 300))
      (some 11) (some 25) (some 1) (some 226) (some 234.5) "copper" "XLPE" "PE"
      stEx stEx SEx Verdict.pass conductorSubmit_ex 300 rfl⟩

/-- Witness for C9: a conductor submission with a NaN current and a sheath
submission with an empty sheath-material selection both leave the stored
state (here one already holding a conductor bundle) exactly unchanged. -/
theorem C9_failure_preserves_state_witness :
    conductorSubmit "area-from-current" AreaField.empty none (some 25) (some 1) (some 226)
      (some 234.5) "copper" "XLPE" "PE" stEx = (stEx, none) ∧
    sheathSubmit "" (some 11) (some 25) (some 1) (some 90) (some 250) (some 30) (some 26)
      (some 2) (some 300) "XLPE" "PE" (some 300) "copper" stEx = (stEx, none) :=
  ⟨C9_failure_preserves_state.1 "area-from-current" AreaField.empty none (some 25)
    (some 1) (some 226) (some 234.5) "copper" "XLPE" "PE" stEx
    (by rw [if_pos rfl]; exact Or.inl rfl),
   C9_failure_preserves_state.2 "" "XLPE" "PE" "copper" (some 11) (some 25) (some 1)
    (some 90) (some 250) (some 30) (some 26) (some 2) (some 300) (some 300) stEx
    (Or.inr (Or.inr (Or.inr (Or.inr (Or.inr (Or.inr (Or.inr (Or.inr (Or.inr
      (Or.inl rfl))))))))))⟩

/-! ## Claim C10 -/

/-- C10 counterexample: `validateVoltageTime(NaN, 11)` returns false — the
`t > 10` guard still fires — so it is not the case that a NaN argument
always makes the function return true. -/
theorem C10_counterexample : validateVoltageTime none (some 11) = false := by
  rw [Bool.eq_false_iff, Ne, validateVoltageTime_none_left]
  norm_num

/-- C10 amended: a NaN argument makes every comparison involving it false,
so `validateVoltageTime` never rejects on account of the NaN itself: with
both arguments NaN it returns true, and with one argument NaN it returns
true exactly when the other argument passes its own bounds.  Thus
`validateVoltageTime` alone does not reject missing/NaN inputs; that
rejection is provided only by the callers' `.some(isNaN)` prechecks, which
make `calculateConductorAreaFromCurrent` return the null sentinel and the
sheath submit handler return with the state unchanged on any NaN input. -/
theorem C10_amended_nan_behaviour :
    validateVoltageTime none none = true ∧
    (∀ t : ℝ, validateVoltageTime none (some t) = true ↔ 0 < t ∧ t ≤ 10) ∧
    (∀ v : ℝ, validateVoltageTime (some v) none = true ↔ 0 < v ∧ v ≤ 400) ∧
    (∀ v i tt k b : JSNum,
      v = none ∨ i = none ∨ tt = none ∨ k = none ∨ b = none →
      calculateConductorAreaFromCurrent v i tt k b = none) ∧
    (∀ sm ins out cm : String, ∀ v i tt th_i th_f d_o d_i dl sg ca : JSNum,
      ∀ st : ProgState,
      (v = none ∨ i = none ∨ tt = none ∨ th_i = none ∨ th_f = none ∨ d_o = none ∨
        d_i = none ∨ dl = none ∨ sg = none) →
      sheathSubmit sm v i tt th_i th_f d_o d_i dl sg ins out ca cm st = (st, none)) := by
  refine ⟨validateVoltageTime_none_none, validateVoltageTime_none_left,
    validateVoltageTime_none_right, ?_, ?_⟩
  · intro v i tt k b h
    rcases v with _ | v
    · rfl
    rcases i with _ | i
    · rfl
    rcases tt with _ | tt
    · rfl
    rcases k with _ | k
    · rfl
    rcases b with _ | b
    · rfl
    rcases h with h | h | h | h | h <;> exact Option.noConfusion h
  · intro sm ins out cm v i tt th_i th_f d_o d_i dl sg ca st h
    rcases v with _ | v
    · rfl
    rcases i with _ | i
    · rfl
    rcases tt with _ | tt
    · rfl
    rcases th_i with _ | th_i
    · rfl
    rcases th_f with _ | th_f
    · rfl
    rcases d_o with _ | d_o
    · rfl
    rcases d_i with _ | d_i
    · rfl
    rcases dl with _ | dl
    · rfl
    rcases sg with _ | sg
    · rfl
    rcases h with h | h | h | h | h | h | h | h | h <;> exact Option.noConfusion h

/-- Witness for C10: a NaN voltage makes the conductor-area calculation
return null and makes the sheath submission leave the state unchanged. -/
theorem C10_amended_nan_behaviour_witness :
    calculateConductorAreaFromCurrent none (some 25) (some 1) (some 226) (some 234.5) =
      none ∧
    sheathSubmit "lead" none (some 25) (some 1) (some 90) (some 250) (some 30) (some 26)
      (some 2) (some 300) "XLPE" "PE" (some 300) "copper" stEx = (stEx, none) :=
  ⟨C10_amended_nan_behaviour.2.2.2.1 none (some 25) (some 1) (some 226) (some 234.5)
    (Or.inl rfl),
   C10_amended_nan_behaviour.2.2.2.2 "lead" "XLPE" "PE" "copper" none (some 25) (some 1)
    (some 90) (some 250) (some 30) (some 26) (some 2) (some 300) (some 300) stEx
    (Or.inl rfl)⟩
